import Mathlib

/-!
Verification of the Task Synchronization & Session Client of
`src/ai-platform/frontend/app.js` (RGB7RED/Platforma).

Shallow embedding conventions:
* JavaScript numbers are modelled as rationals; a `progress` field is an
  `Option ℚ` where `none` covers a missing field, a non-number value and `NaN`
  (in `formatProgress` and `normalizeTaskSnapshot` these three cases follow
  exactly the same branch: `typeof progress !== 'number' || Number.isNaN(progress)`).
* Optional string fields are `Option String`; `none` models a missing field.
  `String(x)` applied to a missing field yields the literal `"undefined"`
  (`jsStringCoerce`), while `x || ''` yields `""` (`jsStringOrEmpty`).
* `jsToLower` embeds `String.prototype.toLowerCase` and `jsTrim` embeds
  `String.prototype.trim`, both written structurally so that concrete
  instances evaluate inside the kernel.
-/

namespace Platforma

/-- `String.prototype.toLowerCase`, embedded as per-character lowering (the
status and stage labels compared by this client are ASCII).  Structurally
recursive so that concrete instances evaluate. -/
def jsToLower (s : String) : String :=
  ⟨s.data.map Char.toLower⟩

/-- `String.prototype.trim`, embedded as dropping whitespace characters from
both ends of the character list.  Structurally recursive so that concrete
instances evaluate. -/
def jsTrim (s : String) : String :=
  ⟨((s.data.dropWhile Char.isWhitespace).reverse.dropWhile Char.isWhitespace).reverse⟩

/-- `String(x)` for a possibly-missing value: JavaScript coerces `undefined`
to the string `"undefined"`. -/
def jsStringCoerce : Option String → String
  | none => "undefined"
  | some s => s

/-- `x || ''` for a possibly-missing string: both `undefined` and `''` are
falsy, everything else passes through. -/
def jsStringOrEmpty : Option String → String
  | none => ""
  | some s => s

/-- `a || b` on possibly-missing strings: the left operand is taken unless it
is falsy (missing or empty). -/
def jsOrString (a : Option String) (b : String) : String :=
  match a with
  | none => b
  | some s => if s = "" then b else s

/-- `!x` truthiness test for a possibly-missing string: true for a missing
field and for the empty string. -/
def jsFalsyString : Option String → Bool
  | none => true
  | some s => s = ""

/-- `const TERMINAL_STATUSES = new Set(['completed', 'failed', 'error']);`
(app.js line 138). Membership in the JS `Set` is embedded as list membership. -/
def TERMINAL_STATUSES : List String := ["completed", "failed", "error"]

/-- Result of `formatProgress`: `{ value, percent }`. -/
structure ProgressInfo where
  value : ℚ
  percent : ℤ
  deriving Repr, DecidableEq

/-- `formatProgress` (app.js lines 1666-1673):

    const formatProgress = (progress) => \x7b
      if (typeof progress !== 'number' || Number.isNaN(progress)) \x7b
        return \x7b value: 0, percent: 0 \x7d;
      \x7d
      const normalized = progress > 1 ? progress / 100 : progress;
      const clamped = Math.max(0, Math.min(1, normalized));
      return \x7b value: clamped, percent: Math.round(clamped * 100) \x7d;
    \x7d;

`none` models the non-number / NaN branch; `Math.round` rounds half away from
zero toward positive infinity, as does `round` on ℚ. -/
def formatProgress : Option ℚ → ProgressInfo
  | none => ⟨0, 0⟩
  | some progress =>
    let normalized := if progress > 1 then progress / 100 else progress
    let clamped := max 0 (min 1 normalized)
    ⟨clamped, round (clamped * 100)⟩

/-- The fields of a task snapshot that the synchronization core reads:
`status`, `current_stage` and `progress`.  Fields the core merely copies
(`error`, `result`, timestamps) are omitted; `normalizeTaskSnapshot` copies
the whole object (`\x7b ...data \x7d`) and rewrites only these fields. -/
structure TaskSnapshot where
  status : Option String
  current_stage : Option String
  progress : Option ℚ
  deriving Repr, DecidableEq

/-- `normalizeTaskSnapshot` (app.js lines 1675-1692):

    const normalized = \x7b ...data \x7d;
    const status = String(normalized.status || '').toLowerCase();
    if (TERMINAL_STATUSES.has(status)) \x7b
      if (typeof normalized.progress !== 'number' || Number.isNaN(normalized.progress)
          || normalized.progress < 1) \x7b
        normalized.progress = 1;
      \x7d
    \x7d
    if (status === 'failed') \x7b
      if (!normalized.current_stage || normalized.current_stage === 'completed') \x7b
        normalized.current_stage = 'review';
      \x7d
    \x7d
    return normalized;

The non-object early return does not arise: callers always pass snapshot
objects, which the structure type enforces. -/
def normalizeTaskSnapshot (data : TaskSnapshot) : TaskSnapshot :=
  let status := jsToLower (jsStringOrEmpty data.status)
  let d1 :=
    if TERMINAL_STATUSES.contains status then
      match data.progress with
      | none => { data with progress := some 1 }
      | some p => if p < 1 then { data with progress := some 1 } else data
    else data
  if status = "failed" then
    if jsFalsyString d1.current_stage || d1.current_stage = some "completed" then
      { d1 with current_stage := some "review" }
    else d1
  else d1

/-- `isTerminalState` (app.js lines 1972-1977):

    const isTerminalState = (data) => \x7b
      const progressInfo = formatProgress(data?.progress);
      const isCompletedByProgress =
        progressInfo.value >= 1 && String(data?.current_stage).toLowerCase() === 'completed';
      return TERMINAL_STATUSES.has(String(data?.status).toLowerCase()) || isCompletedByProgress;
    \x7d; -/
def isTerminalState (data : TaskSnapshot) : Bool :=
  let progressInfo := formatProgress data.progress
  let isCompletedByProgress :=
    decide (progressInfo.value ≥ 1) &&
      (jsToLower (jsStringCoerce data.current_stage) = "completed")
  TERMINAL_STATUSES.contains (jsToLower (jsStringCoerce data.status)) || isCompletedByProgress

/-! ### Credential store (app.js lines 283-325 and 465-522)

Durable `window.localStorage` is modelled by the three keys this client ever
touches (`aiPlatformApiKey`, `aiPlatformAccessToken`, `aiPlatformRefreshToken`);
`none` models an absent key (`getItem` returning `null`, or `removeItem`).
The process-memory side is the module variable `inMemoryAccessToken` together
with `authUser`.  DOM mirroring (`updateApiKeyInputs`, `updateAccessTokenInputs`,
`updateAuthStatus`) renders values already held in state and is outside the
storage frame. -/

/-- The `auth_mode` runtime configuration: `apikey`, `auth` or `hybrid`. -/
inductive AuthMode where
  | apikey
  | auth
  | hybrid
  deriving Repr, DecidableEq

/-- `isAuthEnabled` (app.js lines 79-82). -/
def isAuthEnabled (mode : AuthMode) : Bool :=
  mode = AuthMode.auth || mode = AuthMode.hybrid

/-- `isApiKeyEnabled` (app.js lines 83-86). -/
def isApiKeyEnabled (mode : AuthMode) : Bool :=
  mode = AuthMode.apikey || mode = AuthMode.hybrid

/-- The three `localStorage` keys used by the client. -/
structure LocalStorage where
  apiKeyStored : Option String
  accessTokenStored : Option String
  refreshTokenStored : Option String
  deriving Repr, DecidableEq

/-- Credential-related mutable state: durable storage plus process memory. -/
structure CredState where
  storage : LocalStorage
  inMemoryAccessToken : String
  authUser : Option String
  authMode : AuthMode
  deriving Repr, DecidableEq

/-- `getStoredApiKey` (app.js lines 465-471). -/
def getStoredApiKey (st : CredState) : String :=
  if ¬ isApiKeyEnabled st.authMode then ""
  else
    match st.storage.apiKeyStored with
    | some value => jsTrim value
    | none => ""

/-- `setStoredApiKey` (app.js lines 473-485): persists the trimmed key, or
removes it when the trimmed value is empty; a no-op when API-key mode is off. -/
def setStoredApiKey (value : String) (st : CredState) : CredState :=
  if ¬ isApiKeyEnabled st.authMode then st
  else
    let normalized := jsTrim value
    if normalized = "" then
      { st with storage := { st.storage with apiKeyStored := none } }
    else
      { st with storage := { st.storage with apiKeyStored := some normalized } }

/-- `getStoredAccessToken` (app.js lines 487-489): reads process memory only. -/
def getStoredAccessToken (st : CredState) : String :=
  st.inMemoryAccessToken

/-- `getStoredRefreshToken` (app.js lines 491-494). -/
def getStoredRefreshToken (st : CredState) : String :=
  match st.storage.refreshTokenStored with
  | some value => jsTrim value
  | none => ""

/-- `setStoredRefreshToken` (app.js lines 496-503). -/
def setStoredRefreshToken (value : String) (st : CredState) : CredState :=
  let normalized := jsTrim value
  if normalized = "" then
    { st with storage := { st.storage with refreshTokenStored := none } }
  else
    { st with storage := { st.storage with refreshTokenStored := some normalized } }

/-- `setStoredAccessToken` (app.js lines 505-522):

    const normalized = value.trim();
    inMemoryAccessToken = normalized;
    if (!normalized) \x7b
      window.localStorage.removeItem(ACCESS_TOKEN_STORAGE_KEY);
      authUser = null;
      setStoredRefreshToken('');
    \x7d else \x7b
      window.localStorage.setItem(ACCESS_TOKEN_STORAGE_KEY, normalized);
      if (user !== null) \x7b authUser = user; \x7d else \x7b authUser = authUser || null; \x7d
    \x7d
    updateAccessTokenInputs(normalized);
    updateAuthStatus();

Note the `setItem` in the else branch: a non-empty access token IS written to
durable local storage. -/
def setStoredAccessToken (value : String) (user : Option String) (st : CredState) :
    CredState :=
  let normalized := jsTrim value
  let st1 := { st with inMemoryAccessToken := normalized }
  if normalized = "" then
    setStoredRefreshToken ""
      { st1 with
        storage := { st1.storage with accessTokenStored := none }
        authUser := none }
  else
    { st1 with
      storage := { st1.storage with accessTokenStored := some normalized }
      authUser := match user with | some u => some u | none => st1.authUser }

/-- `hydrateStoredTokens` (app.js lines 322-325): re-reads the access token
from durable local storage into process memory at startup. -/
def hydrateStoredTokens (st : CredState) : CredState :=
  { st with
    inMemoryAccessToken :=
      match st.storage.accessTokenStored with
      | some storedToken => jsTrim storedToken
      | none => "" }

/-- One credential operation, for quantifying over operation sequences. -/
inductive CredOp where
  | setAccess (value : String) (user : Option String)
  | setApiKey (value : String)
  | setRefresh (value : String)
  | hydrate
  deriving Repr, DecidableEq

/-- Interpreter for a sequence of credential operations. -/
def runCredOps (ops : List CredOp) (st : CredState) : CredState :=
  ops.foldl
    (fun st op =>
      match op with
      | CredOp.setAccess v u => setStoredAccessToken v u st
      | CredOp.setApiKey v => setStoredApiKey v st
      | CredOp.setRefresh v => setStoredRefreshToken v st
      | CredOp.hydrate => hydrateStoredTokens st)
    st

/-- The state of a fresh client in hybrid mode with empty storage. -/
def emptyCredState : CredState :=
  { storage := { apiKeyStored := none, accessTokenStored := none, refreshTokenStored := none }
    inMemoryAccessToken := ""
    authUser := none
    authMode := AuthMode.hybrid }

/-! ### Single-flight refresh (app.js lines 1101-1141)

`refreshAccessToken` shares one in-flight refresh through the module variable
`refreshPromise`:

    if (refreshPromise) \x7b return refreshPromise; \x7d
    refreshPromise = (async () => \x7b ... fetch(buildApiUrl('/auth/refresh'), ...) ...
      finally \x7b refreshPromise = null; \x7d \x7d)();
    return refreshPromise;

The client runs under the JavaScript run-to-completion model: a call to
`refreshAccessToken` executes synchronously up to the first `await`.  When no
refresh is pending the caller installs the shared promise and issues the one
network call to `/auth/refresh`; when one is pending the caller receives that
same promise and awaits it.  `refreshStepResolve` models the completion of the
network call: the `finally` clears `refreshPromise` and every awaiting caller
resolves with that promise's result.  Promises are identified by allocation
order. -/

/-- State of the single-flight refresh subsystem under logical concurrency. -/
structure RefreshSys where
  authEnabled : Bool
  refreshPromise : Option Nat
  nextPromiseId : Nat
  refreshCalls : Nat
  waiting : List (Nat × Nat)
  resolvedWith : List (Nat × Nat)
  deriving Repr, DecidableEq

/-- A fresh refresh subsystem with no pending refresh. -/
def initRefresh (authEnabled : Bool) : RefreshSys :=
  { authEnabled := authEnabled
    refreshPromise := none
    nextPromiseId := 0
    refreshCalls := 0
    waiting := []
    resolvedWith := [] }

/-- Caller `c` invokes `refreshAccessToken` (run-to-completion up to the
network `await`).  `refreshCalls` counts network calls to `/auth/refresh`;
`waiting` records which promise each caller awaits. -/
def refreshStepCall (c : Nat) (s : RefreshSys) : RefreshSys :=
  if ¬ s.authEnabled then s
  else
    match s.refreshPromise with
    | some p => { s with waiting := (c, p) :: s.waiting }
    | none =>
      let p := s.nextPromiseId
      { s with
        refreshPromise := some p
        nextPromiseId := p + 1
        refreshCalls := s.refreshCalls + 1
        waiting := (c, p) :: s.waiting }

/-- The in-flight refresh completes: the `finally` block clears
`refreshPromise` and all callers awaiting that promise resolve with its
result. -/
def refreshStepResolve (s : RefreshSys) : RefreshSys :=
  match s.refreshPromise with
  | none => s
  | some p =>
    { s with
      refreshPromise := none
      resolvedWith := s.resolvedWith ++ s.waiting.filter (fun cp => cp.2 == p)
      waiting := s.waiting.filter (fun cp => cp.2 != p) }

/-- An arbitrary interleaving of `refreshAccessToken` invocations by the
callers listed in `cs`, all occurring while no resolution has happened. -/
def runRefreshCalls (cs : List Nat) (s : RefreshSys) : RefreshSys :=
  cs.foldl (fun s c => refreshStepCall c s) s

/-- While a refresh is in flight, further `refreshAccessToken` invocations
issue no network call and attach to the same promise. -/
theorem runRefreshCalls_inflight (cs : List Nat) (s : RefreshSys) (p : Nat)
    (hauth : s.authEnabled = true) (hp : s.refreshPromise = some p) :
    (runRefreshCalls cs s).refreshPromise = some p
    ∧ (runRefreshCalls cs s).refreshCalls = s.refreshCalls
    ∧ (∀ x ∈ s.waiting, x ∈ (runRefreshCalls cs s).waiting)
    ∧ (∀ c ∈ cs, (c, p) ∈ (runRefreshCalls cs s).waiting) := by
  induction cs generalizing s with
  | nil => simp [runRefreshCalls, hp]
  | cons c rest ih =>
    have hstep : refreshStepCall c s = { s with waiting := (c, p) :: s.waiting } := by
      simp [refreshStepCall, hauth, hp]
    have h := ih { s with waiting := (c, p) :: s.waiting } (by simp [hauth]) (by simp [hp])
    refine ⟨?_, ?_, ?_, ?_⟩
    · simpa [runRefreshCalls, hstep] using h.1
    · simpa [runRefreshCalls, hstep] using h.2.1
    · intro x hx
      have := h.2.2.1 x (by simp [hx])
      simpa [runRefreshCalls, hstep] using this
    · intro c2 hc2
      rcases List.mem_cons.mp hc2 with h2 | h2
      · subst h2
        have := h.2.2.1 (c2, p) (by simp)
        simpa [runRefreshCalls, hstep] using this
      · have := h.2.2.2 c2 h2
        simpa [runRefreshCalls, hstep] using this

/-- Trimming the empty string gives the empty string. -/
theorem jsTrim_empty : jsTrim "" = "" := rfl

/-- Membership in the terminal status set, spelt out label by label. -/
theorem TERMINAL_STATUSES_contains_iff (s : String) :
    TERMINAL_STATUSES.contains s = true ↔ (s = "completed" ∨ s = "failed" ∨ s = "error") := by
  simp [TERMINAL_STATUSES, List.contains_eq_any_beq]

/-- The clamped progress value is never negative. -/
theorem formatProgress_value_nonneg (p : Option ℚ) : 0 ≤ (formatProgress p).value := by
  cases p with
  | none => simp [formatProgress]
  | some q => simp [formatProgress]

/-- The clamped progress value never exceeds 1. -/
theorem formatProgress_value_le_one (p : Option ℚ) : (formatProgress p).value ≤ 1 := by
  cases p with
  | none => simp [formatProgress]
  | some q =>
    show max 0 (min 1 (if q > 1 then q / 100 else q)) ≤ 1
    exact max_le (by norm_num) (min_le_left _ _)

/-- C4: for every snapshot, `isTerminalState` returns true if and only if
(a) the status case-insensitively matches a label in the terminal set
\x7bcompleted, failed, error\x7d, or (b) the normalized progress equals 1.0 and
the stage case-insensitively equals "completed" (regardless of what the
status is); it returns false otherwise. -/
theorem c4_terminal_detection_iff (d : TaskSnapshot) :
    isTerminalState d = true ↔
      (jsToLower (jsStringCoerce d.status) = "completed"
        ∨ jsToLower (jsStringCoerce d.status) = "failed"
        ∨ jsToLower (jsStringCoerce d.status) = "error")
      ∨ ((formatProgress d.progress).value = 1
          ∧ jsToLower (jsStringCoerce d.current_stage) = "completed") := by
  have hle := formatProgress_value_le_one d.progress
  simp only [isTerminalState, Bool.or_eq_true, Bool.and_eq_true, decide_eq_true_eq,
    TERMINAL_STATUSES_contains_iff]
  constructor
  · rintro (h | ⟨h1, h2⟩)
    · exact Or.inl h
    · exact Or.inr ⟨le_antisymm hle h1, h2⟩
  · rintro (h | ⟨h1, h2⟩)
    · exact Or.inl h
    · exact Or.inr ⟨h1.ge, h2⟩

/-- C5: progress normalization stays in [0,1] for every rational input;
inputs greater than 1 are first divided by 100 and then clamped, inputs at
most 1 are clamped directly; `normalize(55) = 0.55` and
`normalize(0.55) = 0.55`. -/
theorem c5_progress_normalization (q : ℚ) :
    (0 ≤ (formatProgress (some q)).value ∧ (formatProgress (some q)).value ≤ 1)
    ∧ (q > 1 → (formatProgress (some q)).value = max 0 (min 1 (q / 100)))
    ∧ (q ≤ 1 → (formatProgress (some q)).value = max 0 (min 1 q))
    ∧ (formatProgress (some (55 : ℚ))).value = 55 / 100
    ∧ (formatProgress (some (55 / 100 : ℚ))).value = 55 / 100 := by
  refine ⟨⟨formatProgress_value_nonneg _, formatProgress_value_le_one _⟩, ?_, ?_, ?_, ?_⟩
  · intro h
    show max 0 (min 1 (if q > 1 then q / 100 else q)) = max 0 (min 1 (q / 100))
    rw [if_pos h]
  · intro h
    show max 0 (min 1 (if q > 1 then q / 100 else q)) = max 0 (min 1 q)
    rw [if_neg (not_lt.mpr h)]
  · show max 0 (min 1 (if (55 : ℚ) > 1 then (55 : ℚ) / 100 else 55)) = 55 / 100
    norm_num
  · show max 0 (min 1 (if (55 / 100 : ℚ) > 1 then (55 / 100 : ℚ) / 100 else 55 / 100))
        = 55 / 100
    norm_num

/-- C5 witness: the normalization theorem applied at the negative input -3
(clamped to 0) and used to evaluate the concrete examples. -/
theorem c5_progress_normalization_witness :
    (0 ≤ (formatProgress (some (-3 : ℚ))).value
      ∧ (formatProgress (some (-3 : ℚ))).value ≤ 1)
    ∧ (formatProgress (some (-3 : ℚ))).value = max 0 (min 1 (-3 : ℚ))
    ∧ (formatProgress (some (55 : ℚ))).value = 55 / 100 := by
  have h := c5_progress_normalization (-3)
  exact ⟨h.1, h.2.2.1 (by norm_num), h.2.2.2.1⟩

/-- C10: for every raw snapshot whose status case-insensitively belongs to
the terminal set, the normalized progress equals 1 whenever the incoming
progress is missing / non-numeric / NaN (modelled by `none`) or less than 1;
additionally, for a (case-insensitive) status "failed", a missing (or empty)
`current_stage` or a `current_stage` equal to "completed" is rewritten to
"review". -/
theorem c10_normalize_terminal_snapshot (d : TaskSnapshot)
    (hterm : TERMINAL_STATUSES.contains (jsToLower (jsStringOrEmpty d.status)) = true) :
    ((∀ q, d.progress = some q → q < 1) → (normalizeTaskSnapshot d).progress = some 1)
    ∧ (jsToLower (jsStringOrEmpty d.status) = "failed" →
        (jsFalsyString d.current_stage = true ∨ d.current_stage = some "completed") →
        (normalizeTaskSnapshot d).current_stage = some "review") := by
  obtain ⟨st, cs, pr⟩ := d
  have hmem : jsToLower (jsStringOrEmpty st) ∈ TERMINAL_STATUSES := by simpa using hterm
  constructor
  · intro hlt
    cases pr with
    | none =>
      simp [normalizeTaskSnapshot, hmem, apply_ite TaskSnapshot.progress]
    | some q =>
      have hq : q < 1 := hlt q rfl
      simp [normalizeTaskSnapshot, hmem, hq, apply_ite TaskSnapshot.progress]
  · intro hfail hstage
    have hcs : cs = none ∨ cs = some "" ∨ cs = some "completed" := by
      rcases hstage with h | h
      · cases cs with
        | none => exact Or.inl rfl
        | some s =>
          simp [jsFalsyString] at h
          exact Or.inr (Or.inl (by rw [h]))
      · exact Or.inr (Or.inr h)
    clear hstage
    rcases hcs with h | h | h <;> subst h <;> cases pr <;>
      simp [normalizeTaskSnapshot, hmem, hfail, jsFalsyString,
        apply_ite TaskSnapshot.current_stage]

/-- C10 witness: a snapshot with status "FAILED", stage "completed" and
progress 0.5 is normalized to progress 1 and stage "review". -/
theorem c10_normalize_terminal_snapshot_witness :
    (normalizeTaskSnapshot ⟨some "FAILED", some "completed", some (1 / 2)⟩).progress = some 1
    ∧ (normalizeTaskSnapshot
        ⟨some "FAILED", some "completed", some (1 / 2)⟩).current_stage = some "review" := by
  have h := c10_normalize_terminal_snapshot ⟨some "FAILED", some "completed", some (1 / 2)⟩
    (by decide)
  exact ⟨h.1 (by intro q hq; cases hq; norm_num), h.2 (by decide) (Or.inr rfl)⟩

/-- C3 counterexample: the claim says the access token is never written to
durable local storage, but running the single operation
`setStoredAccessToken "tok"` from a fresh client leaves the access token
stored under its dedicated `localStorage` key. -/
theorem c3_access_token_persisted_counterexample :
    (runCredOps [CredOp.setAccess "tok" none] emptyCredState).storage.accessTokenStored
      = some "tok" := by
  decide

/-- C3 amended: setting an access token stores the trimmed value both in
process memory and in durable local storage (so the API key, the refresh
token AND the access token are persisted); clearing it (empty trimmed value)
removes the stored access token and the stored refresh token and wipes the
in-memory copy; `hydrateStoredTokens` reads the persisted access token back
into process memory. -/
theorem c3_access_token_storage_amended (value : String) (user : Option String)
    (st : CredState) (hne : jsTrim value ≠ "") :
    ((setStoredAccessToken value user st).inMemoryAccessToken = jsTrim value
      ∧ (setStoredAccessToken value user st).storage.accessTokenStored = some (jsTrim value))
    ∧ (∀ v : String, jsTrim v = "" →
        (setStoredAccessToken v user st).inMemoryAccessToken = ""
          ∧ (setStoredAccessToken v user st).storage.accessTokenStored = none
          ∧ (setStoredAccessToken v user st).storage.refreshTokenStored = none)
    ∧ (hydrateStoredTokens (setStoredAccessToken value user st)).inMemoryAccessToken
        = jsTrim (jsTrim value) := by
  refine ⟨⟨?_, ?_⟩, ?_, ?_⟩
  · simp [setStoredAccessToken, hne]
  · simp [setStoredAccessToken, hne]
  · intro v hv
    simp [setStoredAccessToken, setStoredRefreshToken, hv, jsTrim_empty]
  · simp [setStoredAccessToken, hydrateStoredTokens, hne]

/-- C3 amended witness: the amended theorem applied at the concrete token
value "tok" on the fresh client state. -/
theorem c3_access_token_storage_amended_witness :
    ((setStoredAccessToken "tok" none emptyCredState).inMemoryAccessToken = "tok"
      ∧ (setStoredAccessToken "tok" none emptyCredState).storage.accessTokenStored
          = some "tok")
    ∧ (setStoredAccessToken "" none emptyCredState).storage.refreshTokenStored = none := by
  have h := c3_access_token_storage_amended "tok" none emptyCredState (by decide)
  exact ⟨h.1, (h.2.1 "" (by decide)).2.2⟩

/-! ### RequestClient bounded retry (app.js lines 1143-1174)

`apiFetch` issues the request and, on a 401 with `retryOnUnauthorized` set,
an auth-capable mode configured and a meaningful credential situation
(`accessToken || !apiKey`, both snapshotted before the request), awaits
`refreshAccessToken` and on success re-issues the request once with
`retryOnUnauthorized: false`.  This sequential model runs the single caller
to completion (so the shared-promise path of `refreshAccessToken` is the
create-and-await path; the concurrent rendezvous is modelled separately by
`RefreshSys`).  The boolean `retryOnUnauthorized` is encoded as the number
of retries left: `1` for `true`, `0` for `false`.  Thrown network errors
(mixed content, unreachable host) abort `apiFetch` without any retry and are
outside this model, which covers HTTP responses. -/

/-- Server behavior visible to one `apiFetch` call: the HTTP status of each
successive send of the original request, and what the refresh endpoint does.
`refreshAccessTokenInResp` models `data?.access_token || data?.token` of the
refresh response (`none` for a falsy value), `refreshRefreshTokenInResp`
models `data?.refresh_token`. -/
structure Server where
  respond : Nat → Nat
  refreshNetworkError : Bool
  refreshOk : Bool
  refreshAccessTokenInResp : Option String
  refreshRefreshTokenInResp : Option String
  refreshUser : Option String

/-- `refreshAccessToken` (app.js lines 1101-1141), run to completion by a
single caller: returns the resolved value of the refresh promise and the
updated credential state.

* auth mode not enabled: resolves `null` untouched (lines 1102-1104);
* the fetch throws: the catch resolves `null` without clearing (lines 1134-1135);
* non-2xx response: the credential is cleared and `null` resolved (lines 1117-1119);
* 2xx with a token: the token (and a rotated refresh token, when present) is
  stored and resolved (lines 1125-1131);
* 2xx without a token: the credential is cleared and `null` resolved (lines 1132-1133). -/
def refreshAccessTokenSeq (srv : Server) (st : CredState) : Option String × CredState :=
  if ¬ isAuthEnabled st.authMode = true then (none, st)
  else if srv.refreshNetworkError = true then (none, st)
  else if ¬ srv.refreshOk = true then (none, setStoredAccessToken "" none st)
  else
    match srv.refreshAccessTokenInResp with
    | some token =>
      let st1 := setStoredAccessToken token srv.refreshUser st
      let st2 :=
        match srv.refreshRefreshTokenInResp with
        | some nextRefreshToken => setStoredRefreshToken nextRefreshToken st1
        | none => st1
      (some token, st2)
    | none => (none, setStoredAccessToken "" none st)

/-- Observable outcome of one `apiFetch` call: the status returned to the
caller, the final credential state, how many times the original request was
sent, and how many network calls reached the refresh endpoint. -/
structure FetchOutcome where
  status : Nat
  st : CredState
  origRequests : Nat
  refreshCalls : Nat
  deriving Repr

/-- `apiFetch` (app.js lines 1143-1174).  The first argument after the server
is the retries-left encoding of `retryOnUnauthorized` (`1` = `true`, `0` =
`false`); `attempt` indexes the sends of the original request:

    const accessToken = getStoredAccessToken();
    const apiKey = getStoredApiKey();
    response = await fetch(url, ...);
    if (response.status === 401 && retryOnUnauthorized && isAuthEnabled()
        && (accessToken || !apiKey)) \x7b
      const refreshed = await refreshAccessToken();
      if (refreshed) \x7b
        return apiFetch(url, options, \x7b retryOnUnauthorized: false, includeAuth \x7d);
      \x7d
    \x7d
    return response; -/
def apiFetchModel (srv : Server) : Nat → Nat → CredState → FetchOutcome
  | 0, attempt, st =>
    { status := srv.respond attempt, st := st, origRequests := 1, refreshCalls := 0 }
  | _ + 1, attempt, st =>
    let accessToken := getStoredAccessToken st
    let apiKey := getStoredApiKey st
    let status := srv.respond attempt
    if status = 401 ∧ isAuthEnabled st.authMode = true ∧ (accessToken ≠ "" ∨ apiKey = "") then
      match refreshAccessTokenSeq srv st with
      | (some _, st2) =>
        let out := apiFetchModel srv 0 (attempt + 1) st2
        { out with
          origRequests := out.origRequests + 1
          refreshCalls := out.refreshCalls + 1 }
      | (none, st2) =>
        { status := status, st := st2, origRequests := 1, refreshCalls := 1 }
    else
      { status := status, st := st, origRequests := 1, refreshCalls := 0 }

/-- With no retries left, `apiFetch` returns the response as-is. -/
theorem apiFetchModel_zero (srv : Server) (attempt : Nat) (st : CredState) :
    apiFetchModel srv 0 attempt st
      = { status := srv.respond attempt, st := st, origRequests := 1, refreshCalls := 0 } := by
  simp [apiFetchModel]

/-- C1: single-flight refresh.  For every non-empty set of callers that
invoke `refreshAccessToken` concurrently (all before the in-flight refresh
resolves, in any interleaving), exactly one network call is made to the
refresh endpoint, every caller awaits the same shared promise, and when that
single refresh completes all callers resolve with its result. -/
theorem c1_single_flight_refresh (cs : List Nat) (hne : cs ≠ []) :
    (runRefreshCalls cs (initRefresh true)).refreshCalls = 1
    ∧ (runRefreshCalls cs (initRefresh true)).refreshPromise = some 0
    ∧ (∀ c ∈ cs, (c, 0) ∈ (runRefreshCalls cs (initRefresh true)).waiting)
    ∧ (refreshStepResolve (runRefreshCalls cs (initRefresh true))).refreshPromise = none
    ∧ (∀ c ∈ cs,
        (c, 0) ∈ (refreshStepResolve (runRefreshCalls cs (initRefresh true))).resolvedWith) := by
  match cs with
  | [] => exact absurd rfl hne
  | c0 :: rest =>
    have hstep : refreshStepCall c0 (initRefresh true) =
        { authEnabled := true
          refreshPromise := some 0
          nextPromiseId := 1
          refreshCalls := 1
          waiting := [(c0, 0)]
          resolvedWith := [] } := by
      simp [refreshStepCall, initRefresh]
    have hrun : runRefreshCalls (c0 :: rest) (initRefresh true)
        = runRefreshCalls rest (refreshStepCall c0 (initRefresh true)) := rfl
    have h := runRefreshCalls_inflight rest (refreshStepCall c0 (initRefresh true)) 0
      (by rw [hstep]) (by rw [hstep])
    have hwait : ∀ c ∈ c0 :: rest,
        (c, 0) ∈ (runRefreshCalls (c0 :: rest) (initRefresh true)).waiting := by
      intro c hc
      rcases List.mem_cons.mp hc with h2 | h2
      · subst h2
        rw [hrun]
        exact h.2.2.1 (c, 0) (by rw [hstep]; simp)
      · rw [hrun]
        exact h.2.2.2 c h2
    have hcalls : (runRefreshCalls (c0 :: rest) (initRefresh true)).refreshCalls = 1 := by
      rw [hrun, h.2.1, hstep]
    have hprom : (runRefreshCalls (c0 :: rest) (initRefresh true)).refreshPromise = some 0 := by
      rw [hrun]; exact h.1
    refine ⟨hcalls, hprom, hwait, ?_, ?_⟩
    · simp [refreshStepResolve, hprom]
    · intro c hc
      have hw := hwait c hc
      simp only [refreshStepResolve, hprom]
      simp only [List.mem_append, List.mem_filter]
      exact Or.inr ⟨hw, by simp⟩

/-- C1 witness: five concurrent callers observing a 401 trigger exactly one
network call to the refresh endpoint, and all five resolve with that single
refresh result. -/
theorem c1_single_flight_refresh_witness :
    (runRefreshCalls [1, 2, 3, 4, 5] (initRefresh true)).refreshCalls = 1
    ∧ (3, 0) ∈
        (refreshStepResolve (runRefreshCalls [1, 2, 3, 4, 5] (initRefresh true))).resolvedWith := by
  have h := c1_single_flight_refresh [1, 2, 3, 4, 5] (by simp)
  exact ⟨h.1, h.2.2.2.2 3 (by simp)⟩

/-! ### Poll scheduler, push channel and terminal handling
(app.js lines 2051-2080, 2691-2739, 2807-2873)

Timers are modelled by handles: `pollingIntervals` holds the module record of
the five interval handles (`null` = `none`), while `activeTimers` lists the
interval handles currently live in the browser environment (`setInterval`
adds one, `clearInterval` removes it).  This separation makes a leaked timer
observable: a handle live in the environment but no longer in the record.
`pollTaskResume` is the remainder of `pollTask` after its `await fetchTask`
resolves (lines 2705-2739): stopping the timers cancels future ticks but not
a continuation whose fetch is already in flight, so a resumption can run
after `stopPolling`.  `wsMessageIngest` is the push-channel message handler
(lines 2847-2869).  The `Promise.all([pollFiles(taskId), pollArtifacts(taskId)])`
final fetch is counted by `finalFetches`; the terminal consumer notification
`handleTerminalState` is counted by `terminalNotifications`; DOM rendering is
outside the model. -/

/-- The `pollingIntervals` module record (app.js lines 293-299). -/
structure PollingIntervals where
  status : Option Nat
  state : Option Nat
  events : Option Nat
  artifacts : Option Nat
  files : Option Nat
  deriving Repr, DecidableEq

/-- The interval handles currently held in the record. -/
def PollingIntervals.handles (p : PollingIntervals) : List Nat :=
  [p.status, p.state, p.events, p.artifacts, p.files].filterMap id

/-- The all-null record. -/
def noIntervals : PollingIntervals :=
  { status := none, state := none, events := none, artifacts := none, files := none }

/-- Session-level mutable state touched by the polling and push-channel code. -/
structure SessionState where
  pollingIntervals : PollingIntervals
  activeTimers : List Nat
  nextTimerId : Nat
  pollStartTime : Option Nat
  activeSocket : Option Nat
  submitDisabled : Bool
  terminalNotifications : Nat
  finalFetches : Nat
  deriving Repr, DecidableEq

/-- `clearInterval(pollingIntervals[key])` guarded by
`if (pollingIntervals[key])`: removes the handle from the environment when
the record holds one. -/
def clearIntervalOpt (handle : Option Nat) (active : List Nat) : List Nat :=
  match handle with
  | none => active
  | some i => active.filter (fun h => h != i)

/-- `stopPolling` (app.js lines 2051-2059): clears and nulls every interval
handle (iterating the record keys in insertion order) and resets
`pollStartTime`. -/
def stopPolling (s : SessionState) : SessionState :=
  let active := clearIntervalOpt s.pollingIntervals.status s.activeTimers
  let active := clearIntervalOpt s.pollingIntervals.state active
  let active := clearIntervalOpt s.pollingIntervals.events active
  let active := clearIntervalOpt s.pollingIntervals.artifacts active
  let active := clearIntervalOpt s.pollingIntervals.files active
  { s with
    pollingIntervals := noIntervals
    activeTimers := active
    pollStartTime := none }

/-- `schedulePoll` (app.js lines 2074-2080): five `setInterval` calls, each
allocating a fresh environment handle stored in the record. -/
def schedulePoll (s : SessionState) : SessionState :=
  let i := s.nextTimerId
  { s with
    pollingIntervals :=
      { status := some i, state := some (i + 1), events := some (i + 2)
        artifacts := some (i + 3), files := some (i + 4) }
    activeTimers := s.activeTimers ++ [i, i + 1, i + 2, i + 3, i + 4]
    nextTimerId := i + 5 }

/-- `startPolling` (app.js lines 2807-2820): stops any remaining timers
first, records the start instant, issues the immediate one-shot fetches
(which create no timers; their responses are ingested later through the
resume functions) and schedules the repeating timers.  The per-channel
signature resets belong to the dedup model. -/
def startPolling (now : Nat) (s : SessionState) : SessionState :=
  let s1 := stopPolling s
  let s2 := { s1 with pollStartTime := some now }
  schedulePoll s2

/-- `closeWebSocket` (app.js lines 2822-2827). -/
def closeWebSocket (s : SessionState) : SessionState :=
  match s.activeSocket with
  | some _ => { s with activeSocket := none }
  | none => s

/-- Discriminated outcome of `fetchJson` (app.js lines 2082-2100): parsed
data, or an error message with the HTTP status when the server responded. -/
inductive FetchResult where
  | ok (data : TaskSnapshot)
  | err (message : String) (status : Option Nat)
  deriving Repr, DecidableEq

/-- The remainder of `pollTask` after `await fetchTask(taskId)` resolves
(app.js lines 2705-2739):

    if (error) \x7b
      ...render error panels, toast...
      if (status === 404) \x7b stopPolling(); setSubmitDisabled(false); \x7d
      return;
    \x7d
    if (data) \x7b
      const normalized = normalizeTaskSnapshot(data);
      updateStatusPanel(normalized);
      ...
      if (isTerminal) \x7b
        await Promise.all([pollFiles(taskId), pollArtifacts(taskId)]);
        stopPolling();
        handleTerminalState(normalized);
        showResultsWithInspector();
        setSubmitDisabled(false);
        return;
      \x7d
    \x7d -/
def pollTaskResume (r : FetchResult) (s : SessionState) : SessionState :=
  match r with
  | FetchResult.err _ status =>
    if status = some 404 then
      let s1 := stopPolling s
      { s1 with submitDisabled := false }
    else s
  | FetchResult.ok data =>
    let normalized := normalizeTaskSnapshot data
    if isTerminalState normalized then
      let s1 := { s with finalFetches := s.finalFetches + 1 }
      let s2 := stopPolling s1
      { s2 with
        terminalNotifications := s2.terminalNotifications + 1
        submitDisabled := false }
    else s

/-- The push-channel message handler (app.js lines 2847-2869).  `none` models
a malformed or falsy payload, silently discarded:

    if (payload && typeof payload === 'object') \x7b
      const normalized = normalizeTaskSnapshot(payload);
      updateStatusPanel(normalized);
      if (isTerminalState(normalized)) \x7b
        await Promise.all([pollFiles(taskId), pollArtifacts(taskId)]);
        stopPolling();
        handleTerminalState(normalized);
        showResultsWithInspector();
        setSubmitDisabled(false);
        closeWebSocket();
      \x7d
    \x7d -/
def wsMessageIngest (payload : Option TaskSnapshot) (s : SessionState) : SessionState :=
  match payload with
  | none => s
  | some data =>
    let normalized := normalizeTaskSnapshot data
    if isTerminalState normalized then
      let s1 := { s with finalFetches := s.finalFetches + 1 }
      let s2 := stopPolling s1
      closeWebSocket
        { s2 with
          terminalNotifications := s2.terminalNotifications + 1
          submitDisabled := false }
    else s

/-- The environment timers are exactly the handles held in the record: no
timer has leaked.  The code maintains this by always pairing `clearInterval`
with nulling the record slot and `setInterval` with storing the handle. -/
def timersWellFormed (s : SessionState) : Prop :=
  s.activeTimers = s.pollingIntervals.handles

/-- Membership after one guarded `clearInterval`. -/
theorem mem_clearIntervalOpt (handle : Option Nat) (l : List Nat) (x : Nat) :
    x ∈ clearIntervalOpt handle l ↔ x ∈ l ∧ ∀ i, handle = some i → x ≠ i := by
  cases handle with
  | none => simp [clearIntervalOpt]
  | some i => simp [clearIntervalOpt]

/-- From a well-formed state, `stopPolling` leaves zero environment timers. -/
theorem stopPolling_activeTimers (s : SessionState) (hwf : timersWellFormed s) :
    (stopPolling s).activeTimers = [] := by
  rw [List.eq_nil_iff_forall_not_mem]
  intro x hx
  simp only [stopPolling, mem_clearIntervalOpt] at hx
  obtain ⟨⟨⟨⟨⟨hmem, h1⟩, h2⟩, h3⟩, h4⟩, h5⟩ := hx
  rw [hwf] at hmem
  simp only [PollingIntervals.handles, List.mem_filterMap, id, List.mem_cons,
    List.not_mem_nil, or_false] at hmem
  obtain ⟨a, ha, hax⟩ := hmem
  rcases ha with h | h | h | h | h <;> subst h
  · exact h1 x hax rfl
  · exact h2 x hax rfl
  · exact h3 x hax rfl
  · exact h4 x hax rfl
  · exact h5 x hax rfl

/-- `stopPolling` always nulls the record and always resets the start time;
applied to an already-stopped state it changes nothing. -/
theorem stopPolling_stopPolling (s : SessionState) :
    stopPolling (stopPolling s) = stopPolling s := by
  simp [stopPolling, noIntervals, clearIntervalOpt]

/-- C6: bounded retry on unauthorized.  (i) For every server behavior, one
`apiFetch` call sends the original request at most twice and calls the
refresh endpoint at most once.  (ii) When the first response is a 401, a
refresh is meaningful, and the refresh succeeds, the request is retried
exactly once and the retry's response is returned as-is (no further retry,
the retry runs with `retryOnUnauthorized=false`).  (iii) When the refresh
endpoint returns a non-2xx response, the stored credential (in-memory access
token, stored access token and stored refresh token) is cleared and the same
request is not retried again. -/
theorem c6_bounded_retry (srv : Server) (st : CredState) :
    ((apiFetchModel srv 1 0 st).origRequests ≤ 2
      ∧ (apiFetchModel srv 1 0 st).refreshCalls ≤ 1)
    ∧ (srv.respond 0 = 401 → isAuthEnabled st.authMode = true →
        (getStoredAccessToken st ≠ "" ∨ getStoredApiKey st = "") →
        ∀ tok st2, refreshAccessTokenSeq srv st = (some tok, st2) →
        (apiFetchModel srv 1 0 st).origRequests = 2
          ∧ (apiFetchModel srv 1 0 st).status = srv.respond 1
          ∧ (apiFetchModel srv 1 0 st).refreshCalls = 1)
    ∧ (srv.respond 0 = 401 → isAuthEnabled st.authMode = true →
        (getStoredAccessToken st ≠ "" ∨ getStoredApiKey st = "") →
        srv.refreshNetworkError = false → srv.refreshOk = false →
        (apiFetchModel srv 1 0 st).origRequests = 1
          ∧ (apiFetchModel srv 1 0 st).st.inMemoryAccessToken = ""
          ∧ (apiFetchModel srv 1 0 st).st.storage.accessTokenStored = none
          ∧ (apiFetchModel srv 1 0 st).st.storage.refreshTokenStored = none) := by
  refine ⟨?_, ?_, ?_⟩
  · show (apiFetchModel srv (0 + 1) 0 st).origRequests ≤ 2
        ∧ (apiFetchModel srv (0 + 1) 0 st).refreshCalls ≤ 1
    rw [apiFetchModel]
    dsimp only
    split
    · rcases h : refreshAccessTokenSeq srv st with ⟨tok, st2⟩
      cases tok <;> simp [h, apiFetchModel_zero]
    · simp
  · intro h401 hauth hmean tok st2 hrefresh
    have hcond : srv.respond 0 = 401 ∧ isAuthEnabled st.authMode = true
        ∧ (getStoredAccessToken st ≠ "" ∨ getStoredApiKey st = "") := ⟨h401, hauth, hmean⟩
    show (apiFetchModel srv (0 + 1) 0 st).origRequests = 2
        ∧ (apiFetchModel srv (0 + 1) 0 st).status = srv.respond 1
        ∧ (apiFetchModel srv (0 + 1) 0 st).refreshCalls = 1
    rw [apiFetchModel]
    dsimp only
    rw [if_pos hcond, hrefresh]
    simp [apiFetchModel_zero]
  · intro h401 hauth hmean hnet hok
    have hcond : srv.respond 0 = 401 ∧ isAuthEnabled st.authMode = true
        ∧ (getStoredAccessToken st ≠ "" ∨ getStoredApiKey st = "") := ⟨h401, hauth, hmean⟩
    have hrefresh : refreshAccessTokenSeq srv st = (none, setStoredAccessToken "" none st) := by
      simp [refreshAccessTokenSeq, hauth, hnet, hok]
    show (apiFetchModel srv (0 + 1) 0 st).origRequests = 1
        ∧ (apiFetchModel srv (0 + 1) 0 st).st.inMemoryAccessToken = ""
        ∧ (apiFetchModel srv (0 + 1) 0 st).st.storage.accessTokenStored = none
        ∧ (apiFetchModel srv (0 + 1) 0 st).st.storage.refreshTokenStored = none
    rw [apiFetchModel]
    dsimp only
    rw [if_pos hcond, hrefresh]
    simp [setStoredAccessToken, setStoredRefreshToken, jsTrim_empty]

/-- A server whose task endpoint always answers 401 and whose refresh
endpoint answers a non-2xx status.  Used to witness the bounded-retry
theorem. -/
def c6UnauthorizedServer : Server :=
  { respond := fun _ => 401
    refreshNetworkError := false
    refreshOk := false
    refreshAccessTokenInResp := none
    refreshRefreshTokenInResp := none
    refreshUser := none }

/-- C6 witness: against a server that always answers 401 and fails the
refresh, the request is sent once, never retried, and the credential ends up
cleared. -/
theorem c6_bounded_retry_witness :
    (apiFetchModel c6UnauthorizedServer 1 0 emptyCredState).origRequests = 1
    ∧ (apiFetchModel c6UnauthorizedServer 1 0 emptyCredState).st.inMemoryAccessToken = ""
    ∧ (apiFetchModel c6UnauthorizedServer 1 0 emptyCredState).origRequests ≤ 2 := by
  have h := c6_bounded_retry c6UnauthorizedServer emptyCredState
  have h3 := h.2.2 rfl rfl (Or.inr rfl) rfl rfl
  exact ⟨h3.1, h3.2.1, h.1.1⟩

/-! ### List-channel dedup signatures (app.js lines 2176-2204 and 2751-2784)

`pollEvents` computes
`JSON.stringify(events.slice(0, 20).map(getItemKey))` and re-renders only
when it differs from `lastEventSignature`; `pollArtifacts` does the same
over `dedupeArtifacts(artifacts)` with `getArtifactKey`.  `JSON.stringify`
applied to an array of strings is injective (each element is quoted with
escaping), and the initial sentinel `lastEventSignature = ''` is never equal
to a stringified array (which always starts with a bracket).  The signature
slot is therefore modelled as an `Option (List String)`: `none` for the
initial `''`, `some keys` for `JSON.stringify(keys)`, compared by list
equality. -/

/-- The identity-bearing fields of an event list item read by `getItemKey`. -/
structure EventItem where
  id : Option String
  _id : Option String
  event_id : Option String
  artifact_id : Option String
  created_at : Option String
  deriving Repr, DecidableEq

/-- `getItemKey` (app.js lines 2176-2177):
`item?.id || item?._id || item?.event_id || item?.artifact_id || item?.created_at || ''`. -/
def getItemKey (item : EventItem) : String :=
  jsOrString item.id (jsOrString item._id (jsOrString item.event_id
    (jsOrString item.artifact_id (jsOrString item.created_at ""))))

/-- The fields of an artifact read by `getArtifactKey`. -/
structure Artifact where
  id : Option String
  _id : Option String
  artifact_id : Option String
  type : Option String
  produced_by : Option String
  created_at : Option String
  deriving Repr, DecidableEq

/-- `getArtifactKey` (app.js lines 2179-2188). -/
def getArtifactKey (artifact : Artifact) : String :=
  let idVal := jsOrString artifact.id (jsOrString artifact._id
    (jsOrString artifact.artifact_id ""))
  if idVal ≠ "" then "id:" ++ idVal
  else
    "meta:" ++ jsStringOrEmpty artifact.type ++ "|" ++ jsStringOrEmpty artifact.produced_by
      ++ "|" ++ jsStringOrEmpty artifact.created_at

/-- `getArtifactKey` always returns a non-empty (hence truthy) string, so the
`baseKey || JSON.stringify(artifact) || index` fallback on app.js line 2197
never fires. -/
theorem getArtifactKey_ne_empty (artifact : Artifact) : getArtifactKey artifact ≠ "" := by
  unfold getArtifactKey
  intro h
  have hlen := congrArg String.length h
  by_cases hid : jsOrString artifact.id (jsOrString artifact._id
      (jsOrString artifact.artifact_id "")) ≠ ""
  · simp [hid, String.length_append] at hlen
    exact (by decide : "id:".length ≠ 0) hlen.1
  · simp [hid, String.length_append] at hlen
    exact (by decide : "meta:".length ≠ 0) hlen.1.1.1.1.1

/-- The recursion of `artifacts.filter(...)` with the `seen` set
(app.js lines 2194-2203); by `getArtifactKey_ne_empty` the key is always
`getArtifactKey artifact`. -/
def dedupeArtifactsGo (seen : List String) : List Artifact → List Artifact
  | [] => []
  | artifact :: rest =>
    let key := getArtifactKey artifact
    if seen.contains key then dedupeArtifactsGo seen rest
    else artifact :: dedupeArtifactsGo (key :: seen) rest

/-- `dedupeArtifacts` (app.js lines 2190-2204).  The non-array early return
is enforced by the list type. -/
def dedupeArtifacts (artifacts : List Artifact) : List Artifact :=
  dedupeArtifactsGo [] artifacts

/-- The dedup step of `pollEvents` (app.js lines 2758-2764): returns the
updated `lastEventSignature` slot and whether `renderEvents` runs. -/
def pollEventsDedupStep (events : List EventItem)
    (lastEventSignature : Option (List String)) : Option (List String) × Bool :=
  let signature := (events.take 20).map getItemKey
  if lastEventSignature = some signature then (lastEventSignature, false)
  else (some signature, true)

/-- The dedup step of `pollArtifacts` (app.js lines 2774-2783): returns the
updated `lastArtifactSignature` slot, whether `renderArtifacts` runs, and
the `latestArtifactsTotal` count, which is updated before (and regardless
of) the signature comparison. -/
def pollArtifactsDedupStep (artifacts : List Artifact)
    (lastArtifactSignature : Option (List String)) :
    Option (List String) × Bool × Nat :=
  let dedupedArtifacts := dedupeArtifacts artifacts
  let total := dedupedArtifacts.length
  let signature := (dedupedArtifacts.take 20).map getArtifactKey
  if lastArtifactSignature = some signature then (lastArtifactSignature, false, total)
  else (some signature, true, total)

/-- After any fetch, the events signature slot holds the first-20 key list of
that fetch. -/
theorem pollEventsDedupStep_fst (events : List EventItem) (s0 : Option (List String)) :
    (pollEventsDedupStep events s0).1 = some ((events.take 20).map getItemKey) := by
  unfold pollEventsDedupStep
  dsimp only
  split
  · next h => exact h
  · rfl

/-- After any fetch, the artifacts signature slot holds the first-20 key list
of that fetch's deduplicated list. -/
theorem pollArtifactsDedupStep_fst (artifacts : List Artifact) (s0 : Option (List String)) :
    (pollArtifactsDedupStep artifacts s0).1
      = some (((dedupeArtifacts artifacts).take 20).map getArtifactKey) := by
  unfold pollArtifactsDedupStep
  dsimp only
  split
  · next h => exact h
  · rfl

/-- The events dedup step notifies exactly when the previous signature slot
differs from the signature of this fetch. -/
theorem pollEventsDedupStep_snd (events : List EventItem) (s0 : Option (List String)) :
    (pollEventsDedupStep events s0).2 = true
      ↔ s0 ≠ some ((events.take 20).map getItemKey) := by
  unfold pollEventsDedupStep
  dsimp only
  split
  · next h => simp [h]
  · next h => simpa using h

/-- The artifacts dedup step notifies exactly when the previous signature
slot differs from the signature of this fetch. -/
theorem pollArtifactsDedupStep_snd (artifacts : List Artifact) (s0 : Option (List String)) :
    (pollArtifactsDedupStep artifacts s0).2.1 = true
      ↔ s0 ≠ some (((dedupeArtifacts artifacts).take 20).map getArtifactKey) := by
  unfold pollArtifactsDedupStep
  dsimp only
  split
  · next h => simp [h]
  · next h => simpa using h

/-- `closeWebSocket` nulls the socket reference and changes nothing else. -/
theorem closeWebSocket_eq (s : SessionState) :
    closeWebSocket s = { s with activeSocket := none } := by
  obtain ⟨p, a, n, t, sock, d, tn, ff⟩ := s
  cases sock <;> rfl

/-- C8: `stopPolling` is idempotent — calling it when already stopped is a
no-op (the function is total, so no error is thrown) — and after any number
of consecutive calls zero polling timers remain: every environment timer
handle is cleared and every record slot is nulled. -/
theorem c8_stop_idempotent (s : SessionState) (hwf : timersWellFormed s) :
    stopPolling (stopPolling s) = stopPolling s
    ∧ (∀ n : Nat, (stopPolling^[n + 1] s).activeTimers = []
        ∧ (stopPolling^[n + 1] s).pollingIntervals = noIntervals) := by
  have hiter : ∀ n : Nat, stopPolling^[n + 1] s = stopPolling s := by
    intro n
    induction n with
    | zero => rw [Function.iterate_one]
    | succ m ih =>
      rw [Function.iterate_succ_apply', ih, stopPolling_stopPolling]
  refine ⟨stopPolling_stopPolling s, fun n => ?_⟩
  rw [hiter n]
  exact ⟨stopPolling_activeTimers s hwf, rfl⟩

/-- A live session with the five interval timers scheduled and the push
socket open. -/
def c8Session : SessionState :=
  { pollingIntervals :=
      { status := some 1, state := some 2, events := some 3
        artifacts := some 4, files := some 5 }
    activeTimers := [1, 2, 3, 4, 5]
    nextTimerId := 6
    pollStartTime := some 0
    activeSocket := some 0
    submitDisabled := true
    terminalNotifications := 0
    finalFetches := 0 }

/-- C8 witness: two consecutive stops on a live session coincide and leave
zero active timers. -/
theorem c8_stop_idempotent_witness :
    stopPolling (stopPolling c8Session) = stopPolling c8Session
    ∧ (stopPolling^[2] c8Session).activeTimers = [] := by
  have h := c8_stop_idempotent c8Session rfl
  exact ⟨h.1, (h.2 1).1⟩

/-- C9: a 404 on the primary task fetch stops every channel timer (none
remain in the environment, every record slot is nulled) and re-enables the
submit action; the session then accepts a brand-new task activation without
leaked timers — the new activation cancels any remaining timers before
scheduling, ending with exactly its own five fresh timers. -/
theorem c9_404_hard_stop (s : SessionState) (msg : String) (now : Nat)
    (hwf : timersWellFormed s) :
    ((pollTaskResume (FetchResult.err msg (some 404)) s).activeTimers = []
      ∧ (pollTaskResume (FetchResult.err msg (some 404)) s).pollingIntervals = noIntervals
      ∧ (pollTaskResume (FetchResult.err msg (some 404)) s).submitDisabled = false
      ∧ timersWellFormed (pollTaskResume (FetchResult.err msg (some 404)) s))
    ∧ (timersWellFormed
        (startPolling now (pollTaskResume (FetchResult.err msg (some 404)) s))
      ∧ (startPolling now (pollTaskResume (FetchResult.err msg (some 404)) s)).activeTimers
          = [s.nextTimerId, s.nextTimerId + 1, s.nextTimerId + 2, s.nextTimerId + 3,
             s.nextTimerId + 4]) := by
  have hs : stopPolling s
      = { s with pollingIntervals := noIntervals, activeTimers := [],
                 pollStartTime := none } := by
    have hstop := stopPolling_activeTimers s hwf
    simp only [stopPolling] at hstop ⊢
    rw [hstop]
  have h1 : pollTaskResume (FetchResult.err msg (some 404)) s
      = { s with pollingIntervals := noIntervals, activeTimers := [],
                 pollStartTime := none, submitDisabled := false } := by
    simp only [pollTaskResume]
    rw [if_pos trivial, hs]
  rw [h1]
  refine ⟨⟨rfl, rfl, rfl, rfl⟩, ?_, ?_⟩
  · show _ = _
    simp [startPolling, stopPolling, schedulePoll, clearIntervalOpt, noIntervals,
      PollingIntervals.handles, timersWellFormed]
  · simp [startPolling, stopPolling, schedulePoll, clearIntervalOpt, noIntervals]

/-- C9 witness: the hard-stop theorem applied to a live session with timers
1..5 scheduled; after the 404 no timer remains, and a re-activation ends
with exactly the five fresh timers 6..10. -/
theorem c9_404_hard_stop_witness :
    (pollTaskResume (FetchResult.err "Task not found" (some 404)) c8Session).activeTimers = []
    ∧ (startPolling 7
        (pollTaskResume (FetchResult.err "Task not found" (some 404)) c8Session)).activeTimers
        = [6, 7, 8, 9, 10] := by
  have h := c9_404_hard_stop c8Session "Task not found" 7 rfl
  exact ⟨h.1.1, h.2.2⟩

/-- A terminal task snapshot as a server would report it. -/
def completedSnapshot : TaskSnapshot :=
  { status := some "completed", current_stage := none, progress := some 1 }

/-- C2 counterexample: there is no finalizing latch.  From a live session, a
terminal snapshot delivered on the push channel (which stops the timers,
closes the socket and runs the terminal notification) followed by the
resumption of a poll fetch already in flight — the scenario the claim itself
describes — runs the terminal consumer notification a second time, and
issues the final files+artifacts fetch a second time; moreover the poll-side
terminal path never closes the push socket. -/
theorem c2_terminal_double_notification_counterexample :
    (pollTaskResume (FetchResult.ok completedSnapshot)
        (wsMessageIngest (some completedSnapshot) c8Session)).terminalNotifications = 2
    ∧ (pollTaskResume (FetchResult.ok completedSnapshot)
        (wsMessageIngest (some completedSnapshot) c8Session)).finalFetches = 2
    ∧ (pollTaskResume (FetchResult.ok completedSnapshot) c8Session).activeSocket = some 0 := by
  refine ⟨?_, ?_, ?_⟩ <;> rfl

/-- C2 amended: each terminal snapshot ingestion independently runs its
shutdown sequence — one final files+artifacts fetch, stop of all polling
timers, the terminal consumer notification, submit re-enabled — and the
push-channel handler additionally closes the push channel, while the poll
handler leaves the socket untouched; there is no finalizing latch, so a
terminal poll response whose fetch was already in flight when a push-channel
terminal snapshot arrived runs the terminal notification (and the final
fetch) a second time. -/
theorem c2_terminal_shutdown_amended (s : SessionState) (snap : TaskSnapshot)
    (hterm : isTerminalState (normalizeTaskSnapshot snap) = true) :
    ((wsMessageIngest (some snap) s).pollingIntervals = noIntervals
      ∧ (wsMessageIngest (some snap) s).activeSocket = none
      ∧ (wsMessageIngest (some snap) s).terminalNotifications = s.terminalNotifications + 1
      ∧ (wsMessageIngest (some snap) s).finalFetches = s.finalFetches + 1
      ∧ (wsMessageIngest (some snap) s).submitDisabled = false)
    ∧ ((pollTaskResume (FetchResult.ok snap) s).pollingIntervals = noIntervals
      ∧ (pollTaskResume (FetchResult.ok snap) s).activeSocket = s.activeSocket
      ∧ (pollTaskResume (FetchResult.ok snap) s).terminalNotifications
          = s.terminalNotifications + 1
      ∧ (pollTaskResume (FetchResult.ok snap) s).finalFetches = s.finalFetches + 1
      ∧ (pollTaskResume (FetchResult.ok snap) s).submitDisabled = false)
    ∧ (pollTaskResume (FetchResult.ok snap) (wsMessageIngest (some snap) s)).terminalNotifications
        = s.terminalNotifications + 2 := by
  refine ⟨⟨?_, ?_, ?_, ?_, ?_⟩, ⟨?_, ?_, ?_, ?_, ?_⟩, ?_⟩ <;>
    simp [wsMessageIngest, pollTaskResume, hterm, stopPolling, closeWebSocket_eq,
      noIntervals]

/-- C2 amended witness: the amended theorem applied to the live session and
the concrete completed snapshot. -/
theorem c2_terminal_shutdown_amended_witness :
    (wsMessageIngest (some completedSnapshot) c8Session).activeSocket = none
    ∧ (wsMessageIngest (some completedSnapshot) c8Session).terminalNotifications = 1
    ∧ (pollTaskResume (FetchResult.ok completedSnapshot) c8Session).activeSocket = some 0 := by
  have h := c2_terminal_shutdown_amended c8Session completedSnapshot rfl
  exact ⟨h.1.2.1, h.1.2.2.1, h.2.1.2.1.trans rfl⟩

/-- An event item carrying only an `id`, so its identity key is that id. -/
def mkEventItem (k : String) : EventItem :=
  { id := some k, _id := none, event_id := none, artifact_id := none, created_at := none }

/-- Twenty-two distinct item keys, in order. -/
def c7FirstKeys : List String :=
  ["a", "b", "c", "d", "e", "f", "g", "h", "i", "j",
   "k", "l", "m", "n", "o", "p", "q", "r", "s", "t", "u", "v"]

/-- A fetch of 22 events with distinct keys. -/
def c7FirstFetch : List EventItem := c7FirstKeys.map mkEventItem

/-- The same 22 events with the positions of the last two keys swapped — a
position change confined to indices beyond the first 20. -/
def c7SecondFetch : List EventItem :=
  (c7FirstKeys.take 20 ++ ["v", "u"]).map mkEventItem

/-- C7 counterexample: the signature is computed only from the first 20 item
keys (`events.slice(0, 20)`), not from the whole ordered key list.  A second
fetch whose ordered key list differs from the first (two keys swap position)
triggers no notification when the change lies beyond the first 20 keys,
refuting "changing one key's position triggers exactly one notification". -/
theorem c7_dedup_signature_counterexample :
    c7SecondFetch.map getItemKey ≠ c7FirstFetch.map getItemKey
    ∧ (pollEventsDedupStep c7FirstFetch none).2 = true
    ∧ (pollEventsDedupStep c7SecondFetch (pollEventsDedupStep c7FirstFetch none).1).2
        = false := by
  refine ⟨by decide, rfl, by decide⟩

/-- C7 amended: for each list-valued channel the signature is computed from
the ordered list of the FIRST TWENTY item identity keys of the most recent
fetch (after per-fetch deduplication, for artifacts), and the consumer
notification fires exactly when that 20-key prefix differs from the previous
fetch's; in particular an unchanged ordered item-key list triggers no second
notification and a key position change within the first 20 keys triggers
exactly one notification, while changes confined to later positions are not
detected.  The artifacts total is updated on every fetch regardless of the
signature comparison. -/
theorem c7_dedup_signature_amended (l1 l2 : List EventItem) (a1 a2 : List Artifact)
    (s0 t0 : Option (List String)) :
    ((l2.map getItemKey = l1.map getItemKey) →
      (pollEventsDedupStep l2 (pollEventsDedupStep l1 s0).1).2 = false)
    ∧ ((pollEventsDedupStep l2 (pollEventsDedupStep l1 s0).1).2 = true ↔
        (l2.take 20).map getItemKey ≠ (l1.take 20).map getItemKey)
    ∧ ((dedupeArtifacts a2).map getArtifactKey = (dedupeArtifacts a1).map getArtifactKey →
        (pollArtifactsDedupStep a2 (pollArtifactsDedupStep a1 t0).1).2.1 = false)
    ∧ ((pollArtifactsDedupStep a2 (pollArtifactsDedupStep a1 t0).1).2.1 = true ↔
        ((dedupeArtifacts a2).take 20).map getArtifactKey
          ≠ ((dedupeArtifacts a1).take 20).map getArtifactKey)
    ∧ (pollArtifactsDedupStep a2 (pollArtifactsDedupStep a1 t0).1).2.2
        = (dedupeArtifacts a2).length := by
  have hev : (pollEventsDedupStep l2 (pollEventsDedupStep l1 s0).1).2 = true ↔
      (l2.take 20).map getItemKey ≠ (l1.take 20).map getItemKey := by
    rw [pollEventsDedupStep_snd, pollEventsDedupStep_fst]
    simp [eq_comm]
  have har : (pollArtifactsDedupStep a2 (pollArtifactsDedupStep a1 t0).1).2.1 = true ↔
      ((dedupeArtifacts a2).take 20).map getArtifactKey
        ≠ ((dedupeArtifacts a1).take 20).map getArtifactKey := by
    rw [pollArtifactsDedupStep_snd, pollArtifactsDedupStep_fst]
    simp [eq_comm]
  refine ⟨?_, hev, ?_, har, ?_⟩
  · intro hkeys
    rw [← Bool.not_eq_true, hev]
    simp only [List.map_take, hkeys, ne_eq, not_true_eq_false, not_false_eq_true,
      Decidable.not_not]
  · intro hkeys
    rw [← Bool.not_eq_true, har]
    simp only [List.map_take, hkeys, ne_eq, not_true_eq_false, not_false_eq_true,
      Decidable.not_not]
  · unfold pollArtifactsDedupStep
    dsimp only
    split <;> split <;> rfl

/-- C7 amended witness: swapping the positions of two keys inside the first
20 triggers the notification; repeating an identical fetch does not. -/
theorem c7_dedup_signature_amended_witness :
    (pollEventsDedupStep [mkEventItem "b", mkEventItem "a"]
        (pollEventsDedupStep [mkEventItem "a", mkEventItem "b"] none).1).2 = true
    ∧ (pollEventsDedupStep [mkEventItem "a", mkEventItem "b"]
        (pollEventsDedupStep [mkEventItem "a", mkEventItem "b"] none).1).2 = false := by
  have hswap := c7_dedup_signature_amended [mkEventItem "a", mkEventItem "b"]
    [mkEventItem "b", mkEventItem "a"] [] [] none none
  have hsame := c7_dedup_signature_amended [mkEventItem "a", mkEventItem "b"]
    [mkEventItem "a", mkEventItem "b"] [] [] none none
  exact ⟨hswap.2.1.mpr (by decide), hsame.1 rfl⟩

end Platforma
